import Mathlib

/-!
Verification of the flippy simulation core (src/main.rs) against its
natural-language specification.  The per-frame systems, the collision
detector, the score tracker, the obstacle spawner and the phase state
machine are embedded as pure Lean functions over exact rational
arithmetic; positions and velocities that the source stores in f32 are
modelled as rationals, and the Rust `%` remainder on floats is modelled
by `f32rem` (truncating remainder, matching Rust semantics).
-/

namespace Flippy

/-! ## Constants (src/main.rs lines 33-48) -/

def VIRTUAL_WIDTH : ℚ := 512

def VIRTUAL_HEIGHT : ℚ := 288

def GROUND_HEIGHT : ℚ := 12

def GROUND_WIDTH : ℚ := 1100

def BACKGROUND_SCROLL_SPEED : ℚ := 30

def GROUND_SCROLL_SPEED : ℚ := 61

def BACKGROUND_LOOPING_POINT : ℚ := 413

def BACKGROUND_LOOPING_OFFSET : ℚ := 290

def BIRD_GRAVITY : ℚ := -26

def BIRD_WIDTH : ℚ := 38

def BIRD_HEIGHT : ℚ := 24

def BIRD_JUMP : ℚ := 4

def PIPE_SCROLL : ℚ := -60

def PIPE_WIDTH : ℚ := 70

def PIPE_HEIGHT : ℚ := 288

def PIPE_GAP : ℚ := 110

/-! ## Movement and scroll subsystem (BackgroundSystem::run) -/

inductive BackgroundType
  | Background
  | Ground
deriving DecidableEq

/-- Truncation toward zero, the rounding used by Rust's `%` on floats. -/
def ratTrunc (a : ℚ) : ℤ := if 0 ≤ a then ⌊a⌋ else ⌈a⌉

/-- Rust remainder `a % b`: truncating division remainder. -/
def f32rem (a b : ℚ) : ℚ := a - b * (ratTrunc (a / b) : ℚ)

/-- One `BackgroundSystem::run` update for a single scrolling entity:
returns the new `scroll_pos` and the new translation x. -/
def backgroundRun (b_type : BackgroundType) (scroll_pos dt : ℚ) : ℚ × ℚ :=
  match b_type with
  | BackgroundType.Background =>
    let sp := f32rem (scroll_pos + BACKGROUND_SCROLL_SPEED * dt) BACKGROUND_LOOPING_POINT
    (sp, BACKGROUND_LOOPING_OFFSET - sp)
  | BackgroundType.Ground =>
    let sp := f32rem (scroll_pos + GROUND_SCROLL_SPEED * dt) BACKGROUND_LOOPING_POINT
    (sp, BACKGROUND_LOOPING_OFFSET - sp)

/-! ## Player control subsystem (BirdSystem::run) -/

structure Bird where
  dy : ℚ
  score : ℤ
  fly_pressed : Bool
deriving DecidableEq

/-- One `BirdSystem::run` update for the player: gravity, edge-triggered
jump, persisted key state, and the y displacement
(`prepend_translation_y(bird.dy)`).  Returns the updated component and
the new y. -/
def birdRun (b : Bird) (y dt : ℚ) (space_pressed : Bool) : Bird × ℚ :=
  let dy1 := b.dy + BIRD_GRAVITY * dt
  let dy2 := if space_pressed && (space_pressed != b.fly_pressed) then BIRD_JUMP else dy1
  ({ dy := dy2, score := b.score, fly_pressed := space_pressed }, y + dy2)

/-! ## Obstacle movement and removal (PipeSystem::run) -/

/-- One `PipeSystem::run` update for a single obstacle: scroll it left,
then flag it for deletion when its x has passed
`VIRTUAL_WIDTH / -2 - PIPE_WIDTH`.  Returns the new x and the deletion
flag. -/
def pipeRun (x dt : ℚ) : ℚ × Bool :=
  let x2 := x + PIPE_SCROLL * dt
  (x2, decide (x2 < VIRTUAL_WIDTH / (-2) - PIPE_WIDTH))

/-! ## Collision detector (CollisionSystem::run, point_in_rect) -/

def point_in_rect (x y left bottom right top : ℚ) : Bool :=
  decide (x ≥ left) && decide (x ≤ right) && decide (y ≥ bottom) && decide (y ≤ top)

/-- Boundary test of `CollisionSystem::run` (src/main.rs line 217):
`bird_y - BIRD_WIDTH / 2. > VIRTUAL_HEIGHT / 2.`. -/
def boundaryHit (bird_y : ℚ) : Bool :=
  decide (bird_y - BIRD_WIDTH / 2 > VIRTUAL_HEIGHT / 2)

/-- Pipe test of `CollisionSystem::run` (lines 222-237); `tx`, `ty` are
the pipe transform's translation. -/
def pipeHit (bird_x bird_y tx ty : ℚ) : Bool :=
  let pipe_x := tx - PIPE_WIDTH / 2
  let pipe_y := ty - PIPE_HEIGHT / 2
  point_in_rect bird_x bird_y (pipe_x - BIRD_WIDTH / 2) (pipe_y - BIRD_HEIGHT / 2)
    (pipe_x + PIPE_WIDTH + BIRD_WIDTH / 2) (pipe_y + PIPE_HEIGHT + BIRD_HEIGHT / 2)

/-- Ground test of `CollisionSystem::run` (lines 239-258); `gx`, `gy`
are the ground transform's translation.  Faithful to the source, which
assigns `background_x` from `transform.translation().y` (line 243), so
`gx` is never read. -/
def groundHit (bird_x bird_y gx gy : ℚ) : Bool :=
  let background_x := gy - GROUND_WIDTH / 2
  let background_y := gy - GROUND_HEIGHT / 2
  point_in_rect bird_x bird_y (background_x - BIRD_WIDTH / 2) (background_y - BIRD_HEIGHT / 2)
    (background_x + GROUND_WIDTH + BIRD_WIDTH / 2)
    (background_y + GROUND_HEIGHT + BIRD_HEIGHT / 2)

/-- Number of Collision events `CollisionSystem::run` writes for one
live player this tick: one for the boundary test, one per qualifying
pipe, one per qualifying Ground background. -/
def collisionEvents (bird_x bird_y : ℚ) (pipes : List (ℚ × ℚ))
    (backgrounds : List (BackgroundType × ℚ × ℚ)) : ℕ :=
  (if boundaryHit bird_y then 1 else 0)
    + pipes.countP (fun p => pipeHit bird_x bird_y p.1 p.2)
    + backgrounds.countP (fun b =>
        match b.1 with
        | BackgroundType.Background => false
        | BackgroundType.Ground => groundHit bird_x bird_y b.2.1 b.2.2)

/-- Modelled from the spec (section 4.4, part (b)): the Ground's own
bounding rectangle — horizontal extent taken from the ground
transform's x — expanded outward by half the player's width/height,
tested with inclusive bounds.  Comparison definition for the ground
test; the source's `groundHit` above derives the horizontal extent from
the transform's y instead. -/
def groundRectHitSpec (bird_x bird_y gx gy : ℚ) : Bool :=
  let ground_left := gx - GROUND_WIDTH / 2
  let ground_bottom := gy - GROUND_HEIGHT / 2
  point_in_rect bird_x bird_y (ground_left - BIRD_WIDTH / 2) (ground_bottom - BIRD_HEIGHT / 2)
    (ground_left + GROUND_WIDTH + BIRD_WIDTH / 2)
    (ground_bottom + GROUND_HEIGHT + BIRD_HEIGHT / 2)

/-! ## Score tracker (ScoreSystem::run) -/

/-- An obstacle entity: its transform translation, its `Pipe` component
flag `is_scored`, and whether it was spawned rotated by pi (upper
member of a pair). -/
structure PipeEnt where
  x : ℚ
  y : ℚ
  is_scored : Bool
  rotated : Bool
deriving DecidableEq

/-- One `ScoreSystem::run` check of a single obstacle against the
player at `bird_x`: marks it scored and yields 1 score increment when
`!pipe.is_scored && pipe_x < bird_x && pipe_y < 0.` with
`pipe_x = x + PIPE_WIDTH/2`, `pipe_y = y + PIPE_HEIGHT/2`. -/
def scoreRunPipe (bird_x : ℚ) (p : PipeEnt) : PipeEnt × ℕ :=
  let pipe_x := p.x + PIPE_WIDTH / 2
  let pipe_y := p.y + PIPE_HEIGHT / 2
  if !p.is_scored && decide (pipe_x < bird_x) && decide (pipe_y < 0) then
    ({ p with is_scored := true }, 1)
  else
    (p, 0)

/-- A play session seen by one obstacle of fixed altitude `y`: `ticks`
lists per tick the player's x and the obstacle's x (both scroll over
time).  Folds `scoreRunPipe` through the session, returning the total
number of score increments the obstacle produced and its final
`is_scored` flag. -/
def sessionInc (y : ℚ) (scored : Bool) (ticks : List (ℚ × ℚ)) : ℕ × Bool :=
  match ticks with
  | [] => (0, scored)
  | (bx, px) :: rest =>
    let st := scoreRunPipe bx { x := px, y := y, is_scored := scored, rotated := false }
    let r := sessionInc y st.1.is_scored rest
    (st.2 + r.1, r.2)

/-! ## Obstacle spawner (PlayState::update, lines 570-623) -/

/-- Spawn step of `PlayState::update`: decrement the countdown timer by
dt; when it reaches <= 0 build the two obstacles of a pair from the one
random gap offset `random_y` and reset the timer to `new_interval`
(the source draws it from `gen_range(2., 4.)`); otherwise keep the
decremented timer.  Returns the list of newly created obstacles and the
timer stored back into `pipe_spawn_timer`. -/
def playUpdateSpawn (timer dt random_y new_interval : ℚ) : List PipeEnt × ℚ :=
  let t := timer - dt
  if t ≤ 0 then
    ([{ x := VIRTUAL_WIDTH / 2 + PIPE_WIDTH,
        y := -VIRTUAL_HEIGHT / 2 + random_y - PIPE_GAP / 2,
        is_scored := false, rotated := false },
      { x := VIRTUAL_WIDTH / 2 + PIPE_WIDTH,
        y := VIRTUAL_HEIGHT / 2 + random_y + PIPE_GAP / 2,
        is_scored := false, rotated := true }], new_interval)
  else ([], t)

/-! ## Phase state machine (TitleScreenState, PlayState, PauseState) -/

inductive Phase
  | title
  | play
  | pause
deriving DecidableEq

inductive WindowEv
  | close
  | keyEscape
  | keySpace
  | other
deriving DecidableEq

inductive GameEvent
  | collision
deriving DecidableEq

/-- The event type delivered to `handle_event` (MyStateEvent in the
source); Ui and Input arms carry no data the states inspect. -/
inductive MyStateEvent
  | window (w : WindowEv)
  | ui
  | input
  | game (g : GameEvent)
deriving DecidableEq

/-- A player entity: the `Bird` component plus its transform. -/
structure BirdEnt where
  bird : Bird
  x : ℚ
  y : ℚ
  z : ℚ
deriving DecidableEq

/-- `Bird::default()`. -/
def birdDefault : Bird := { dy := 0, score := 0, fly_pressed := false }

/-- The player entity the Play state spawns: `Bird::default()` with
`Transform::from(Vector3::new(0., 0., 4.))`. -/
def freshBirdEnt : BirdEnt := { bird := birdDefault, x := 0, y := 0, z := 4 }

/-- The parts of the world the phase transitions mutate: player and
obstacle entities, the score display text, and the title overlay. -/
structure WorldM where
  birds : List BirdEnt
  pipes : List PipeEnt
  scoreText : String
  titleHidden : Bool
  titleText : String
deriving DecidableEq

/-- `set_score_font`: writes `s` into the score display and returns the
text it previously held. -/
def set_score_font (w : WorldM) (s : String) : WorldM × String :=
  ({ w with scoreText := s }, w.scoreText)

/-- `PlayState::on_pause` (lines 471-516): delete all pipe and bird
entities, blank the score display keeping the previous text as the last
score, show the title overlay and write the final score into it. -/
def playOnPause (w : WorldM) : WorldM :=
  let w1 := { w with pipes := [], birds := [] }
  let r := set_score_font w1 ("")
  { r.1 with titleHidden := false, titleText := "Your Score: " ++ r.2 }

/-- `PlayState::on_resume` (lines 518-552): reset the score display to
0, spawn a fresh player at the origin, re-hide the title overlay. -/
def playOnResume (w : WorldM) : WorldM :=
  let w1 := (set_score_font w ("0")).1
  { w1 with birds := freshBirdEnt :: w1.birds, titleHidden := true }

/-- `PlayState::on_start` (entity effects): score display created
reading 0 and a fresh player spawned at the origin. -/
def playOnStart (w : WorldM) : WorldM :=
  { w with scoreText := "0", birds := freshBirdEnt :: w.birds }

/-- `TitleScreenState::on_pause`: hide the title overlay. -/
def titleOnPause (w : WorldM) : WorldM := { w with titleHidden := true }

/-- The `Trans` value a state's `handle_event` returns. -/
inductive TransR
  | none
  | push (p : Phase)
  | pop
  | quit
deriving DecidableEq

/-- `handle_event` of the three states, by the phase on top of the
stack.  Title: close/escape quit, space pushes Play.  Play: close/escape
quit, a Collision game event pushes Pause.  Pause: space pops,
close/escape quit; everything else is `Trans::None`. -/
def handle_event (p : Phase) (e : MyStateEvent) : TransR :=
  match p with
  | Phase.title =>
    match e with
    | MyStateEvent.window WindowEv.close => TransR.quit
    | MyStateEvent.window WindowEv.keyEscape => TransR.quit
    | MyStateEvent.window WindowEv.keySpace => TransR.push Phase.play
    | _ => TransR.none
  | Phase.play =>
    match e with
    | MyStateEvent.window WindowEv.close => TransR.quit
    | MyStateEvent.window WindowEv.keyEscape => TransR.quit
    | MyStateEvent.game GameEvent.collision => TransR.push Phase.pause
    | _ => TransR.none
  | Phase.pause =>
    match e with
    | MyStateEvent.window WindowEv.keySpace => TransR.pop
    | MyStateEvent.window WindowEv.close => TransR.quit
    | MyStateEvent.window WindowEv.keyEscape => TransR.quit
    | _ => TransR.none

/-- `on_pause` hook run on the state being covered by a push. -/
def onPauseHook (p : Phase) (w : WorldM) : WorldM :=
  match p with
  | Phase.title => titleOnPause w
  | Phase.play => playOnPause w
  | Phase.pause => w

/-- `on_start` hook of the state being pushed. -/
def onStartHook (p : Phase) (w : WorldM) : WorldM :=
  match p with
  | Phase.play => playOnStart w
  | _ => w

/-- `on_resume` hook of the state revealed by a pop. -/
def onResumeHook (p : Phase) (w : WorldM) : WorldM :=
  match p with
  | Phase.play => playOnResume w
  | _ => w

/-- The application state: the state-machine stack (head = active
state) and the world. -/
structure Machine where
  stack : List Phase
  world : WorldM
deriving DecidableEq

/-- Amethyst's application of a `Trans` value: `Push` pauses the
current state and starts the new one; `Pop` removes the current state
and resumes the revealed one (popping the last state, like `Quit`, ends
the program — modelled as `Option.none`). -/
def applyTrans (m : Machine) (t : TransR) : Option Machine :=
  match t with
  | TransR.none => some m
  | TransR.quit => Option.none
  | TransR.push p =>
    match m.stack with
    | [] => some m
    | top :: rest =>
      some { stack := p :: top :: rest, world := onStartHook p (onPauseHook top m.world) }
  | TransR.pop =>
    match m.stack with
    | [] => some m
    | _ :: [] => Option.none
    | _ :: next :: rest => some { stack := next :: rest, world := onResumeHook next m.world }

/-- Deliver one event to the machine: the active state's `handle_event`
chooses a `Trans`, which is then applied. -/
def stepEvent (m : Machine) (e : MyStateEvent) : Option Machine :=
  match m.stack with
  | [] => some m
  | top :: _ => applyTrans m (handle_event top e)

/-- A concrete world used to instantiate witnesses. -/
def worldEx : WorldM :=
  { birds := [], pipes := [], scoreText := "0", titleHidden := true, titleText := "" }

end Flippy

namespace Flippy

theorem ratTrunc_of_nonneg (a : ℚ) (h : 0 ≤ a) : ratTrunc a = ⌊a⌋ := if_pos h

theorem f32rem_bounds (a b : ℚ) (ha : 0 ≤ a) (hb : 0 < b) :
    0 ≤ f32rem a b ∧ f32rem a b < b := by
  have hdiv : 0 ≤ a / b := div_nonneg ha hb.le
  have hb0 : b ≠ 0 := ne_of_gt hb
  have hrw : f32rem a b = a - b * ((⌊a / b⌋ : ℤ) : ℚ) := by
    unfold f32rem
    rw [ratTrunc_of_nonneg _ hdiv]
  have h3 : b * (a / b) = a := by field_simp
  have hfl : ((⌊a / b⌋ : ℤ) : ℚ) ≤ a / b := Int.floor_le _
  have hfu : a / b < (⌊a / b⌋ : ℤ) + 1 := Int.lt_floor_add_one _
  constructor
  · have h2 : b * ((⌊a / b⌋ : ℤ) : ℚ) ≤ b * (a / b) := by
      exact mul_le_mul_of_nonneg_left hfl hb.le
    rw [hrw]
    linarith
  · have h4 : b * (a / b) < b * (((⌊a / b⌋ : ℤ) : ℚ) + 1) := by
      exact mul_lt_mul_of_pos_left hfu hb
    have h5 : b * (((⌊a / b⌋ : ℤ) : ℚ) + 1) = b * ((⌊a / b⌋ : ℤ) : ℚ) + b := by ring
    rw [hrw]
    linarith

/-- C4: for every ScrollingBackground entity of either kind and every
dt ≥ 0, if `0 ≤ scroll_pos < BACKGROUND_LOOPING_POINT` holds before the
per-frame `BackgroundSystem::run` update then it holds after it
(wrap-around invariant). -/
theorem c4_scroll_wrap (b_type : BackgroundType) (scroll_pos dt : ℚ)
    (hdt : 0 ≤ dt) (h0 : 0 ≤ scroll_pos) (h1 : scroll_pos < BACKGROUND_LOOPING_POINT) :
    0 ≤ (backgroundRun b_type scroll_pos dt).1 ∧
      (backgroundRun b_type scroll_pos dt).1 < BACKGROUND_LOOPING_POINT := by
  have hlp : (0 : ℚ) < BACKGROUND_LOOPING_POINT := by norm_num [BACKGROUND_LOOPING_POINT]
  cases b_type with
  | Background =>
    have harg : 0 ≤ scroll_pos + BACKGROUND_SCROLL_SPEED * dt := by
      have : 0 ≤ BACKGROUND_SCROLL_SPEED * dt := by
        have hs : (0 : ℚ) ≤ BACKGROUND_SCROLL_SPEED := by norm_num [BACKGROUND_SCROLL_SPEED]
        exact mul_nonneg hs hdt
      linarith
    simpa [backgroundRun] using f32rem_bounds _ _ harg hlp
  | Ground =>
    have harg : 0 ≤ scroll_pos + GROUND_SCROLL_SPEED * dt := by
      have : 0 ≤ GROUND_SCROLL_SPEED * dt := by
        have hs : (0 : ℚ) ≤ GROUND_SCROLL_SPEED := by norm_num [GROUND_SCROLL_SPEED]
        exact mul_nonneg hs hdt
      linarith
    simpa [backgroundRun] using f32rem_bounds _ _ harg hlp

/-- C4 witness: the invariant at a concrete input (Background kind,
scroll_pos 0, dt 1). -/
theorem c4_scroll_wrap_witness :
    0 ≤ (backgroundRun BackgroundType.Background 0 1).1 ∧
      (backgroundRun BackgroundType.Background 0 1).1 < BACKGROUND_LOOPING_POINT :=
  c4_scroll_wrap BackgroundType.Background 0 1 (by norm_num) (le_refl 0)
    (by norm_num [BACKGROUND_LOOPING_POINT])

/-- C6: each `BirdSystem::run` tick first applies
`dy += BIRD_GRAVITY * dt`; exactly when the jump key is down this tick
and was not down on the previous tick it sets `dy = BIRD_JUMP`; and it
always displaces `y += dy` with no second scaling by dt, while the key
state persists one tick. -/
theorem c6_bird_update (b : Bird) (y dt : ℚ) (space_pressed : Bool) :
    (birdRun b y dt space_pressed).1.dy
        = (if space_pressed = true ∧ b.fly_pressed = false then BIRD_JUMP
           else b.dy + BIRD_GRAVITY * dt)
    ∧ (birdRun b y dt space_pressed).2 = y + (birdRun b y dt space_pressed).1.dy
    ∧ (birdRun b y dt space_pressed).1.fly_pressed = space_pressed := by
  cases space_pressed <;> cases hb : b.fly_pressed <;> simp [birdRun, hb]

/-- C7 counterexample: the claim retains, on the next tick, an obstacle
set to `VIRTUAL_WIDTH / -2 - PIPE_WIDTH + eps` for every eps > 0; but
with eps = 1/2 and a 1/60 s tick the scroll applied at the start of
`PipeSystem::run` carries the obstacle past the threshold and it is
removed. -/
theorem c7_counterexample :
    (0 : ℚ) < 1 / 2 ∧ (0 : ℚ) ≤ 1 / 60 ∧
      (pipeRun (VIRTUAL_WIDTH / (-2) - PIPE_WIDTH + 1 / 2) (1 / 60)).2 = true := by
  refine ⟨by norm_num, by norm_num, ?_⟩
  norm_num [pipeRun, VIRTUAL_WIDTH, PIPE_WIDTH, PIPE_SCROLL]

/-- C7 amended: on each tick an obstacle is removed exactly when its
post-movement x is strictly below `VIRTUAL_WIDTH / -2 - PIPE_WIDTH`;
one set to threshold - eps (eps > 0) is removed on the next tick, and
one set to threshold + eps is retained provided eps exceeds the
distance `-PIPE_SCROLL * dt` scrolled during that tick. -/
theorem c7_removal (x dt eps : ℚ) (hdt : 0 ≤ dt) (heps : 0 < eps) :
    ((pipeRun x dt).2 = true ↔ x + PIPE_SCROLL * dt < VIRTUAL_WIDTH / (-2) - PIPE_WIDTH)
    ∧ (pipeRun (VIRTUAL_WIDTH / (-2) - PIPE_WIDTH - eps) dt).2 = true
    ∧ ((-PIPE_SCROLL) * dt < eps →
        (pipeRun (VIRTUAL_WIDTH / (-2) - PIPE_WIDTH + eps) dt).2 = false) := by
  refine ⟨by simp [pipeRun], ?_, ?_⟩
  · simp only [pipeRun, decide_eq_true_eq]
    norm_num [VIRTUAL_WIDTH, PIPE_WIDTH, PIPE_SCROLL]
    linarith
  · intro h
    simp only [pipeRun, decide_eq_false_iff_not, not_lt]
    norm_num [VIRTUAL_WIDTH, PIPE_WIDTH, PIPE_SCROLL] at h ⊢
    linarith

/-- C7 witness: the amended statement at x = 0, dt = 1/60, eps = 2. -/
theorem c7_removal_witness :
    (0 : ℚ) ≤ 1 / 60 ∧ (0 : ℚ) < 2 ∧
      (((pipeRun 0 (1 / 60)).2 = true ↔
          (0 : ℚ) + PIPE_SCROLL * (1 / 60) < VIRTUAL_WIDTH / (-2) - PIPE_WIDTH)
       ∧ (pipeRun (VIRTUAL_WIDTH / (-2) - PIPE_WIDTH - 2) (1 / 60)).2 = true
       ∧ ((-PIPE_SCROLL) * (1 / 60) < 2 →
           (pipeRun (VIRTUAL_WIDTH / (-2) - PIPE_WIDTH + 2) (1 / 60)).2 = false)) :=
  ⟨by norm_num, by norm_num, c7_removal 0 (1 / 60) 2 (by norm_num) (by norm_num)⟩

/-- C1 counterexample: a player at y = -145 has fallen below the bottom
of the playfield (-VIRTUAL_HEIGHT / 2 = -144), yet the boundary test of
`CollisionSystem::run` is false there and, with no pipes and no ground
entities, the system emits no Collision event at all. -/
theorem c1_counterexample :
    ((-145 : ℚ) < -(VIRTUAL_HEIGHT / 2)) ∧ boundaryHit (-145) = false ∧
      collisionEvents 0 (-145) [] [] = 0 := by
  have hb : boundaryHit (-145) = false := by
    simp only [boundaryHit, decide_eq_false_iff_not, gt_iff_lt, not_lt]
    norm_num [BIRD_WIDTH, VIRTUAL_HEIGHT]
  refine ⟨by norm_num [VIRTUAL_HEIGHT], hb, ?_⟩
  simp [collisionEvents, hb]

/-- C1 amended: the per-tick boundary test of `CollisionSystem::run`
emits its Collision event exactly when the player has risen above the
top of the playfield with a half-BIRD_WIDTH margin
(`bird_y - BIRD_WIDTH / 2 > VIRTUAL_HEIGHT / 2`), not when it has
fallen below the bottom: with no pipe and no ground entities the
emitted event count is 1 above that line and 0 everywhere else. -/
theorem c1_boundary (bird_x bird_y : ℚ) :
    collisionEvents bird_x bird_y [] []
      = if VIRTUAL_HEIGHT / 2 < bird_y - BIRD_WIDTH / 2 then 1 else 0 := by
  by_cases h : VIRTUAL_HEIGHT / 2 < bird_y - BIRD_WIDTH / 2 <;>
    simp [collisionEvents, boundaryHit, h, gt_iff_lt]

/-- C2: the source assigns `background_x` from the ground transform's
y-translation (src/main.rs line 243) instead of its x-translation, so a
player inside the Ground's expanded bounding rectangle — here the
player at (500, -138) with the Ground at its initial transform
(290, -138) — produces no Collision event, though the rectangle the
spec describes contains the player. -/
theorem c2_ground_rect_bug :
    groundRectHitSpec 500 (-138) 290 (-138) = true ∧
      collisionEvents 500 (-138) [] [(BackgroundType.Ground, 290, -138)] = 0 := by
  have hspec : groundRectHitSpec 500 (-138) 290 (-138) = true := by
    simp only [groundRectHitSpec, point_in_rect, Bool.and_eq_true, decide_eq_true_eq,
      ge_iff_le]
    norm_num [GROUND_WIDTH, GROUND_HEIGHT, BIRD_WIDTH, BIRD_HEIGHT]
  have hcode : groundHit 500 (-138) 290 (-138) = false := by
    simp only [groundHit, point_in_rect]
    have hx : ¬ ((500 : ℚ) ≤ -138 - GROUND_WIDTH / 2 + GROUND_WIDTH + BIRD_WIDTH / 2) := by
      norm_num [GROUND_WIDTH, BIRD_WIDTH]
    simp [decide_eq_false hx]
  have hb : boundaryHit (-138) = false := by
    simp only [boundaryHit, decide_eq_false_iff_not, gt_iff_lt, not_lt]
    norm_num [BIRD_WIDTH, VIRTUAL_HEIGHT]
  refine ⟨hspec, ?_⟩
  simp [collisionEvents, hb, hcode]

theorem sessionInc_never (y : ℚ) (hy : ¬ y + PIPE_HEIGHT / 2 < 0) (scored : Bool)
    (ticks : List (ℚ × ℚ)) : sessionInc y scored ticks = (0, scored) := by
  induction ticks generalizing scored with
  | nil => rfl
  | cons t rest ih =>
    obtain ⟨bx, px⟩ := t
    simp [sessionInc, scoreRunPipe, hy, ih]

theorem sessionInc_scored_stays (y : ℚ) (ticks : List (ℚ × ℚ)) :
    sessionInc y true ticks = (0, true) := by
  induction ticks with
  | nil => rfl
  | cons t rest ih =>
    obtain ⟨bx, px⟩ := t
    simp [sessionInc, scoreRunPipe, ih]

theorem sessionInc_low (y : ℚ) (hy : y + PIPE_HEIGHT / 2 < 0) (ticks : List (ℚ × ℚ)) :
    sessionInc y false ticks
      = if ticks.any (fun t => decide (t.2 + PIPE_WIDTH / 2 < t.1)) then (1, true)
        else (0, false) := by
  induction ticks with
  | nil => simp [sessionInc]
  | cons t rest ih =>
    obtain ⟨bx, px⟩ := t
    by_cases hx : px + PIPE_WIDTH / 2 < bx
    · simp [sessionInc, scoreRunPipe, hy, hx, sessionInc_scored_stays, List.any_cons]
    · simp [sessionInc, scoreRunPipe, hy, hx, ih, List.any_cons]
      rw [decide_eq_false hx, Bool.false_or]

/-- C3: for an obstacle pair spawned together from one gap offset
`random_y` (spec bounds -40..40), over any play session in which the
player passes them — some tick has the shared obstacle x past the
player's x by the trailing-edge test — the upper (rotated) member never
scores and the lower member's `is_scored` flag transitions false→true
exactly once, yielding exactly one score increment for the pair. -/
theorem c3_pair_scores_once (random_y : ℚ) (ticks : List (ℚ × ℚ))
    (hlo : -40 ≤ random_y) (hhi : random_y ≤ 40)
    (hpass : ticks.any (fun t => decide (t.2 + PIPE_WIDTH / 2 < t.1)) = true) :
    sessionInc (VIRTUAL_HEIGHT / 2 + random_y + PIPE_GAP / 2) false ticks = (0, false)
    ∧ sessionInc (-VIRTUAL_HEIGHT / 2 + random_y - PIPE_GAP / 2) false ticks = (1, true) := by
  constructor
  · apply sessionInc_never
    intro hcon
    norm_num [VIRTUAL_HEIGHT, PIPE_GAP, PIPE_HEIGHT] at hcon
    linarith
  · have hy : (-VIRTUAL_HEIGHT / 2 + random_y - PIPE_GAP / 2) + PIPE_HEIGHT / 2 < 0 := by
      norm_num [VIRTUAL_HEIGHT, PIPE_GAP, PIPE_HEIGHT]
      linarith
    rw [sessionInc_low _ hy, hpass]
    simp

/-- C3 witness: a one-tick session with the player at x = 100 past a
pair at x = 0 with gap offset 0. -/
theorem c3_pair_scores_once_witness :
    ([((100 : ℚ), (0 : ℚ))].any (fun t => decide (t.2 + PIPE_WIDTH / 2 < t.1)) = true)
    ∧ (sessionInc (VIRTUAL_HEIGHT / 2 + 0 + PIPE_GAP / 2) false [((100 : ℚ), (0 : ℚ))]
          = (0, false)
       ∧ sessionInc (-VIRTUAL_HEIGHT / 2 + 0 - PIPE_GAP / 2) false [((100 : ℚ), (0 : ℚ))]
          = (1, true)) :=
  ⟨by
      simp only [List.any_cons, List.any_nil, Bool.or_false, decide_eq_true_eq]
      norm_num [PIPE_WIDTH],
    c3_pair_scores_once 0 [((100 : ℚ), (0 : ℚ))] (by norm_num) (by norm_num)
      (by
        simp only [List.any_cons, List.any_nil, Bool.or_false, decide_eq_true_eq]
        norm_num [PIPE_WIDTH])⟩

/-- C8: when the spawn countdown reaches <= 0 during a Play tick,
`PlayState::update` creates exactly two obstacles, both at
`x = VIRTUAL_WIDTH / 2 + PIPE_WIDTH` and sharing the one gap offset
`random_y`: the lower at `-VIRTUAL_HEIGHT / 2 + random_y - PIPE_GAP / 2`
unrotated and the upper at `VIRTUAL_HEIGHT / 2 + random_y + PIPE_GAP / 2`
rotated, both unscored; the timer is reset to the freshly drawn
interval, which lies in the 2-4 second range. -/
theorem c8_spawn_pair (timer dt random_y new_interval : ℚ)
    (htimer : timer - dt ≤ 0) (hlo : 2 ≤ new_interval) (hhi : new_interval < 4) :
    playUpdateSpawn timer dt random_y new_interval
      = ([{ x := VIRTUAL_WIDTH / 2 + PIPE_WIDTH,
            y := -VIRTUAL_HEIGHT / 2 + random_y - PIPE_GAP / 2,
            is_scored := false, rotated := false },
          { x := VIRTUAL_WIDTH / 2 + PIPE_WIDTH,
            y := VIRTUAL_HEIGHT / 2 + random_y + PIPE_GAP / 2,
            is_scored := false, rotated := true }], new_interval)
    ∧ (playUpdateSpawn timer dt random_y new_interval).1.length = 2
    ∧ 2 ≤ (playUpdateSpawn timer dt random_y new_interval).2
    ∧ (playUpdateSpawn timer dt random_y new_interval).2 < 4 := by
  refine ⟨?_, ?_, ?_, ?_⟩ <;> simp [playUpdateSpawn, htimer, hlo, hhi]

/-- C8 witness: the spawn at timer 1, dt 2, gap offset 0, new interval 3. -/
theorem c8_spawn_pair_witness :
    playUpdateSpawn 1 2 0 3
      = ([{ x := VIRTUAL_WIDTH / 2 + PIPE_WIDTH,
            y := -VIRTUAL_HEIGHT / 2 + 0 - PIPE_GAP / 2,
            is_scored := false, rotated := false },
          { x := VIRTUAL_WIDTH / 2 + PIPE_WIDTH,
            y := VIRTUAL_HEIGHT / 2 + 0 + PIPE_GAP / 2,
            is_scored := false, rotated := true }], 3)
    ∧ (playUpdateSpawn 1 2 0 3).1.length = 2
    ∧ (2 : ℚ) ≤ (playUpdateSpawn 1 2 0 3).2
    ∧ (playUpdateSpawn 1 2 0 3).2 < 4 :=
  c8_spawn_pair 1 2 0 3 (by norm_num) (by norm_num) (by norm_num)

/-- C5: delivering the same Collision event twice within one tick
leaves the state machine — stack and world, hence phase and score —
exactly where one delivery leaves it: at most one Pause layer is
pushed. -/
theorem c5_collision_idempotent (m : Machine) :
    (stepEvent m (MyStateEvent.game GameEvent.collision)).bind
        (fun m2 => stepEvent m2 (MyStateEvent.game GameEvent.collision))
      = stepEvent m (MyStateEvent.game GameEvent.collision) := by
  obtain ⟨stack, w⟩ := m
  cases stack with
  | nil => rfl
  | cons top rest => cases top <;> rfl

/-- C9: from Play, a Collision (entering Pause) followed by the jump
key returns the machine to Play with all prior obstacles gone, exactly
one fresh player — `Bird::default()`, velocity 0 and score 0, at the
spawn origin — and the score display reading 0. -/
theorem c9_resume_fresh (rest : List Phase) (w : WorldM) :
    (stepEvent { stack := Phase.play :: rest, world := w }
        (MyStateEvent.game GameEvent.collision)).bind
        (fun m2 => stepEvent m2 (MyStateEvent.window WindowEv.keySpace))
      = some { stack := Phase.play :: rest,
               world := { birds := [freshBirdEnt], pipes := [], scoreText := "0",
                          titleHidden := true,
                          titleText := "Your Score: " ++ w.scoreText } } := by
  rfl

/-- C10: while Pause is active a Collision event never changes the
machine; every event other than the jump key and close/escape leaves it
unchanged, close/escape quit, and the jump key pops back to the Play
state underneath (so a Collision during Pause never pushes a second
Pause layer). -/
theorem c10_pause_stable (rest : List Phase) (w : WorldM) (e : MyStateEvent)
    (hs : e ≠ MyStateEvent.window WindowEv.keySpace)
    (hc : e ≠ MyStateEvent.window WindowEv.close)
    (he : e ≠ MyStateEvent.window WindowEv.keyEscape) :
    stepEvent { stack := Phase.pause :: rest, world := w } e
        = some { stack := Phase.pause :: rest, world := w }
    ∧ stepEvent { stack := Phase.pause :: rest, world := w }
          (MyStateEvent.game GameEvent.collision)
        = some { stack := Phase.pause :: rest, world := w }
    ∧ stepEvent { stack := Phase.pause :: rest, world := w } (MyStateEvent.window WindowEv.close)
        = Option.none
    ∧ stepEvent { stack := Phase.pause :: rest, world := w }
          (MyStateEvent.window WindowEv.keyEscape)
        = Option.none
    ∧ stepEvent { stack := Phase.pause :: Phase.play :: rest, world := w }
          (MyStateEvent.window WindowEv.keySpace)
        = some { stack := Phase.play :: rest, world := playOnResume w } := by
  refine ⟨?_, rfl, rfl, rfl, rfl⟩
  cases e with
  | window wv =>
    cases wv with
    | close => exact absurd rfl hc
    | keyEscape => exact absurd rfl he
    | keySpace => exact absurd rfl hs
    | other => rfl
  | ui => rfl
  | input => rfl
  | game g => cases g; rfl

/-- C10 witness: the statement at a singleton Pause stack, a concrete
world and a Ui event. -/
theorem c10_pause_stable_witness :
    stepEvent { stack := [Phase.pause], world := worldEx } MyStateEvent.ui
        = some { stack := [Phase.pause], world := worldEx }
    ∧ stepEvent { stack := [Phase.pause], world := worldEx }
          (MyStateEvent.game GameEvent.collision)
        = some { stack := [Phase.pause], world := worldEx }
    ∧ stepEvent { stack := [Phase.pause], world := worldEx } (MyStateEvent.window WindowEv.close)
        = Option.none
    ∧ stepEvent { stack := [Phase.pause], world := worldEx }
          (MyStateEvent.window WindowEv.keyEscape)
        = Option.none
    ∧ stepEvent { stack := [Phase.pause, Phase.play], world := worldEx }
          (MyStateEvent.window WindowEv.keySpace)
        = some { stack := [Phase.play], world := playOnResume worldEx } :=
  c10_pause_stable [] worldEx MyStateEvent.ui (by simp) (by simp) (by simp)

end Flippy
